import Mathlib

/-
Verification of the FinSIGHT time-series analysis core
(finance/services/time_series_analyzer.py).

The embedding models Python dates as year/month/day triples with the
proleptic Gregorian calendar, exact decimal and float arithmetic as
rational numbers, the numeric square root used by numpy and pandas as an
oracle parameter, and fallible Python code as Except values whose error
string names the Python exception raised.
-/

/-- Calendar date, mirroring datetime.date fields. -/
structure Date where
  year : Nat
  month : Nat
  day : Nat
  deriving DecidableEq, Repr

/-- Gregorian leap-year rule used by datetime. -/
def isLeapYear (y : Nat) : Bool :=
  (y % 4 == 0 && y % 100 != 0) || (y % 400 == 0)

/-- Number of days in a month of a given year. -/
def daysInMonth (y m : Nat) : Nat :=
  if m = 2 then (if isLeapYear y then 29 else 28)
  else if m = 4 ∨ m = 6 ∨ m = 9 ∨ m = 11 then 30
  else 31

/-- Date construction with validation; none models the ValueError raised
by date.replace on an invalid combination. -/
def mkValidDate (y m d : Nat) : Option Date :=
  if 1 ≤ m ∧ m ≤ 12 ∧ 1 ≤ d ∧ d ≤ daysInMonth y m then some ⟨y, m, d⟩ else none

/-- Lexicographic strict order on dates, matching datetime.date comparison. -/
def dateLtB (a b : Date) : Bool :=
  a.year < b.year ||
    (a.year == b.year &&
      (a.month < b.month || (a.month == b.month && a.day < b.day)))

/-- Proposition form of the strict date order. -/
def DateLt (a b : Date) : Prop := dateLtB a b = true

instance (a b : Date) : Decidable (DateLt a b) := by
  unfold DateLt; infer_instance

/-- Nonstrict date order. -/
def DateLe (a b : Date) : Prop := DateLt a b ∨ a = b

instance (a b : Date) : Decidable (DateLe a b) := by
  unfold DateLe; infer_instance

/-- Later of two dates, as the Python builtin max on dates. -/
def maxDateB (a b : Date) : Date := if DateLt a b then b else a

/-- Day after a given valid date. -/
def nextDay (d : Date) : Date :=
  if d.day < daysInMonth d.year d.month then ⟨d.year, d.month, d.day + 1⟩
  else if d.month < 12 then ⟨d.year, d.month + 1, 1⟩
  else ⟨d.year + 1, 1, 1⟩

/-- Day before a given valid date. -/
def prevDay (d : Date) : Date :=
  if 1 < d.day then ⟨d.year, d.month, d.day - 1⟩
  else if 1 < d.month then ⟨d.year, d.month - 1, daysInMonth d.year (d.month - 1)⟩
  else ⟨d.year - 1, 12, 31⟩

/-- Date plus a number of days, as date + timedelta(days=n) for n ≥ 0. -/
def addDays : Date → Nat → Date
  | d, 0 => d
  | d, n + 1 => addDays (nextDay d) n

/-- Date minus a number of days, as date - timedelta(days=n) for n ≥ 0. -/
def subDays : Date → Nat → Date
  | d, 0 => d
  | d, n + 1 => subDays (prevDay d) n

/-- Days in the months strictly before month m of year y. -/
def daysBeforeMonth (y m : Nat) : Nat :=
  (List.range (m - 1)).foldl (fun acc i => acc + daysInMonth y (i + 1)) 0

/-- Proleptic Gregorian ordinal of a date, as date.toordinal. -/
def toOrd (dt : Date) : Int :=
  let p := dt.year - 1
  ((365 * p + p / 4 + p / 400 + daysBeforeMonth dt.year dt.month + dt.day : Nat) : Int)
    - ((p / 100 : Nat) : Int)

/-- Day of week with Monday = 0, as date.weekday. -/
def weekday (dt : Date) : Nat := ((toOrd dt + 6) % 7).toNat

/-- Sum of a list of rationals. -/
def qsum (xs : List ℚ) : ℚ := xs.foldr (· + ·) 0

/-- Arithmetic mean, as numpy mean on a nonempty array. -/
def qmean (xs : List ℚ) : ℚ := qsum xs / (xs.length : ℚ)

/-- Population variance (ddof 0), the square of numpy std. -/
def popVar (xs : List ℚ) : ℚ :=
  qsum (xs.map (fun x => (x - qmean xs) ^ 2)) / (xs.length : ℚ)

/-- Sample variance (ddof 1), the square of the pandas std default. -/
def sampleVar (xs : List ℚ) : ℚ :=
  if xs.length ≤ 1 then 0
  else qsum (xs.map (fun x => (x - qmean xs) ^ 2)) / ((xs.length - 1 : Nat) : ℚ)

/-- Square-root oracle standing for the numeric square root of numpy and
pandas, about which the source only uses that the root of zero is zero. -/
structure SqrtFn where
  f : ℚ → ℚ
  zero : f 0 = 0

/-- Trivial square-root oracle used to instantiate witnesses. -/
def zeroSqrt : SqrtFn := ⟨fun _ => 0, rfl⟩

deriving instance DecidableEq for Except

/-- Insertion into a list sorted by a boolean comparison. -/
def insertLe {α : Type} (le : α → α → Bool) (x : α) : List α → List α
  | [] => [x]
  | y :: ys => if le x y then x :: y :: ys else y :: insertLe le x ys

/-- Insertion sort by a boolean comparison, used for the stable sorts the
source performs on patterns and schedules. -/
def sortLe {α : Type} (le : α → α → Bool) : List α → List α
  | [] => []
  | x :: xs => insertLe le x (sortLe le xs)

/-- Median of a list, as numpy median: midpoint of the sorted list, the
average of the two central elements for even length. -/
def medianQ (xs : List ℚ) : ℚ :=
  let s := sortLe (fun a b => decide (a ≤ b)) xs
  let n := s.length
  if n = 0 then 0
  else if n % 2 = 1 then s.getD (n / 2) 0
  else (s.getD (n / 2 - 1) 0 + s.getD (n / 2) 0) / 2

/-- Transaction row of the loaded DataFrame: id, date, amount, description,
category name and is_recurring flag. -/
structure Txn where
  tid : Nat
  date : Date
  amount : ℚ
  description : String
  category : Option String
  isRecurring : Bool
  deriving DecidableEq, Repr

/-- Frequency classes of the recurring-payment model. -/
inductive Freq
  | weekly
  | biweekly
  | monthly
  | quarterly
  | annual
  deriving DecidableEq, Repr

/-- Expected days per frequency class, the frequency_days dictionary of
_calculate_confidence. -/
def frequencyDays (f : Freq) : ℚ :=
  match f with
  | .weekly => 7
  | .biweekly => 14
  | .monthly => 30
  | .quarterly => 91
  | .annual => 365

/-- Frequency bands of _detect_frequency: target, tolerance, class, tried
in this order against the median interval. -/
def freqBands : List (ℚ × ℚ × Freq) :=
  [(7, 2, .weekly), (14, 3, .biweekly), (30, 5, .monthly),
   (91, 7, .quarterly), (365, 14, .annual)]

/-- Embedding of TimeSeriesAnalyzer._detect_frequency. -/
def detectFrequencyFn (intervals : List ℚ) : Option Freq :=
  if intervals.isEmpty then none
  else
    let m := medianQ intervals
    (freqBands.find? (fun t => decide (|m - t.1| ≤ t.2.1))).map (fun t => t.2.2)

/-- Embedding of TimeSeriesAnalyzer._calculate_confidence. -/
def calculateConfidence (sq : SqrtFn) (intervals : List ℚ) (f : Freq) : ℚ :=
  if intervals.isEmpty then 0
  else
    let expected := frequencyDays f
    let mu := qmean intervals
    if mu = 0 then 0
    else
      let cv := sq.f (popVar intervals) / mu
      let meanError := |mu - expected| / expected
      max 0 (1 - cv - meanError)

/-- Detected recurring-pattern candidate. -/
structure RecurringPattern where
  description : String
  amount : ℚ
  frequency : Freq
  confidence : ℚ
  occurrences : Nat
  transactionIds : List Nat
  lastDate : Date
  category : Option String
  deriving DecidableEq, Repr

/-- Group keys in order of first appearance; the source uses the pandas
groupby on the description column, whose key order does not affect the
properties stated below because the output is re-sorted by confidence. -/
def groupKeys (df : List Txn) : List String :=
  df.foldl (fun acc t => if t.description ∈ acc then acc else acc ++ [t.description]) []

/-- Amount-tolerance check of detect_recurring_patterns. Amounts are
Decimal values, so when the mean is zero the first evaluated quotient
raises a decimal exception, which the source does not catch. -/
def withinToleranceChk (amounts : List ℚ) (mu tol : ℚ) : Except String Bool :=
  if mu = 0 then
    if amounts.isEmpty then .ok true else .error "decimal.InvalidOperation"
  else .ok (amounts.all (fun a => decide (|a - mu| / mu ≤ tol)))

/-- Day gaps between consecutive dates of a group, as
np.diff(dates).astype(timedelta64[D]).astype(int). -/
def dateGaps : List Date → List ℚ
  | a :: b :: rest => ((toOrd b - toOrd a : Int) : ℚ) :: dateGaps (b :: rest)
  | _ => []

/-- Latest date of a nonempty list, as the pandas max over a date column;
the default is returned only for an empty list, which no caller passes. -/
def maxDateList (ds : List Date) : Date :=
  match ds with
  | [] => ⟨1, 1, 1⟩
  | d :: rest => rest.foldl (fun a b => if DateLt a b then b else a) d

/-- Body of the per-group loop of detect_recurring_patterns: none when the
group is discarded, some pattern when a candidate is appended, error when
the tolerance check raises. -/
def processGroup (sq : SqrtFn) (minOcc : Nat) (tol : ℚ) (key : String)
    (g : List Txn) : Except String (Option RecurringPattern) :=
  if g.length < minOcc then .ok none
  else
    let amounts := g.map (·.amount)
    let mu := qmean amounts
    match withinToleranceChk amounts mu tol with
    | .error e => .error e
    | .ok wt =>
      if wt then
        let intervals := dateGaps (g.map (·.date))
        if intervals.isEmpty then .ok none
        else
          match detectFrequencyFn intervals with
          | none => .ok none
          | some f =>
            let conf := calculateConfidence sq intervals f
            if (7 : ℚ) / 10 < conf then
              .ok (some
                { description := key
                  amount := mu
                  frequency := f
                  confidence := conf
                  occurrences := g.length
                  transactionIds := g.map (·.tid)
                  lastDate := maxDateList (g.map (·.date))
                  category := g.head?.bind (fun t => t.category) })
            else .ok none
      else .ok none

/-- Accumulation of candidates over the description groups, propagating a
raised exception as the source loop would. -/
def buildPatterns (sq : SqrtFn) (minOcc : Nat) (tol : ℚ) :
    List (String × List Txn) → Except String (List RecurringPattern)
  | [] => .ok []
  | (k, g) :: rest =>
    match processGroup sq minOcc tol k g with
    | .error e => .error e
    | .ok none => buildPatterns sq minOcc tol rest
    | .ok (some p) =>
      match buildPatterns sq minOcc tol rest with
      | .error e => .error e
      | .ok ps => .ok (p :: ps)

/-- Descending sort by confidence, the final
patterns.sort(key=confidence, reverse=True). -/
def sortByConfidenceDesc (ps : List RecurringPattern) : List RecurringPattern :=
  sortLe (fun a b => decide (b.confidence ≤ a.confidence)) ps

/-- Embedding of TimeSeriesAnalyzer.detect_recurring_patterns on the
loaded dataset. -/
def detectRecurringPatterns (sq : SqrtFn) (df : List Txn) (minOcc : Nat)
    (tol : ℚ) : Except String (List RecurringPattern) :=
  if df.length < minOcc then .ok []
  else
    match buildPatterns sq minOcc tol
        ((groupKeys df).map (fun k => (k, df.filter (fun t => t.description == k)))) with
    | .error e => .error e
    | .ok ps => .ok (sortByConfidenceDesc ps)

/-- Embedding of TimeSeriesAnalyzer.get_discretionary_spending: rows not
flagged is_recurring. -/
def discretionaryOf (df : List Txn) : List Txn :=
  df.filter (fun t => t.isRecurring == false)

/-- Earliest date of a transaction list; default for the empty list, which
the callers below guard against. -/
def seriesStart (df : List Txn) : Date :=
  match df with
  | [] => ⟨1, 1, 1⟩
  | t :: ts => (ts.map (·.date)).foldl (fun a b => if DateLt b a then b else a) t.date

/-- Latest date of a transaction list. -/
def seriesEnd (df : List Txn) : Date :=
  match df with
  | [] => ⟨1, 1, 1⟩
  | t :: ts => (ts.map (·.date)).foldl (fun a b => if DateLt a b then b else a) t.date

/-- Length of the dense daily date range from the earliest to the latest
date of the list, as pd.date_range(min, max, freq=D). -/
def seriesLen (df : List Txn) : Nat :=
  if df.isEmpty then 0 else (toOrd (seriesEnd df) - toOrd (seriesStart df)).toNat + 1

/-- Zero-filled daily sum at day k of the dense range: the groupby-date
sum reindexed over the full range with fill value 0. -/
def dailyAmount (df : List Txn) (k : Nat) : ℚ :=
  qsum ((df.filter (fun t => t.date == addDays (seriesStart df) k)).map (·.amount))

/-- Dense zero-filled daily series, as resample(D).sum().fillna(0). -/
def dailySeries (df : List Txn) : List ℚ :=
  (List.range (seriesLen df)).map (dailyAmount df)

/-- Values inside the trailing rolling window ending at day k, with window
size w and minimum period 1. -/
def windowVals (df : List Txn) (w k : Nat) : List ℚ :=
  let c := min (k + 1) w
  (List.range c).map (fun i => dailyAmount df (k + 1 - c + i))

/-- Rolling mean at day k, as rolling(window, min_periods=1).mean(). -/
def rollMean (df : List Txn) (w k : Nat) : ℚ := qmean (windowVals df w k)

/-- Rolling standard deviation at day k, as rolling(window,
min_periods=1).std(); none models the NaN produced when only one sample
is in the window (sample deviation with ddof 1). -/
def rollStd (sq : SqrtFn) (df : List Txn) (w k : Nat) : Option ℚ :=
  if 2 ≤ min (k + 1) w then some (sq.f (sampleVar (windowVals df w k))) else none

/-- Rolling anomaly threshold mean + n_std * std; none where the rolling
standard deviation is NaN, and any comparison with it is then false. -/
def rollThreshold (sq : SqrtFn) (df : List Txn) (w : Nat) (nstd : ℚ) (k : Nat) :
    Option ℚ :=
  (rollStd sq df w k).map (fun s => rollMean df w k + nstd * s)

/-- Anomaly condition of the detect_anomalies loop: spending strictly
above the threshold and strictly positive. -/
def anomalyCond (sq : SqrtFn) (df : List Txn) (w : Nat) (nstd : ℚ) (k : Nat) : Bool :=
  (match rollThreshold sq df w nstd k with
   | some t => decide (t < dailyAmount df k)
   | none => false) && decide (0 < dailyAmount df k)

/-- Anomaly record emitted by detect_anomalies. -/
structure AnomalyRecord where
  date : Date
  amount : ℚ
  threshold : ℚ
  mean : ℚ
  std : ℚ
  zScore : ℚ
  transactions : List Txn
  deriving DecidableEq, Repr

/-- Record the source tries to build for an anomalous day k; the getD
defaults are never used because the record is only attempted where the
rolling deviation exists. The z score is idealized: the source expression
float((amount - rolling_mean[date]) / rolling_std[date]) mixes the
Decimal amount with the float64 rolling mean and raises TypeError
whenever the positive branch is evaluated; detectAnomaliesRun below keeps
that error, while this record feeds the idealized detectAnomalies. -/
def mkAnomaly (sq : SqrtFn) (df : List Txn) (w : Nat) (nstd : ℚ) (k : Nat) :
    AnomalyRecord :=
  let d := addDays (seriesStart df) k
  let amt := dailyAmount df k
  let m := rollMean df w k
  let s := (rollStd sq df w k).getD 0
  { date := d
    amount := amt
    threshold := (rollThreshold sq df w nstd k).getD 0
    mean := m
    std := s
    zScore := if 0 < s then (amt - m) / s else 0
    transactions := df.filter (fun t => t.date == d) }

/-- Idealized total model of TimeSeriesAnalyzer.detect_anomalies: the
list of records the loop attempts to append. The source only returns a
list when this list is empty, because appending raises (see
detectAnomaliesRun); the idealized output therefore contains every record
the source could ever attempt, which only strengthens the exclusion
property proved about it below. -/
def detectAnomalies (sq : SqrtFn) (df : List Txn) (nstd : ℚ) (w : Nat) :
    List AnomalyRecord :=
  let disc := discretionaryOf df
  if disc.isEmpty then []
  else
    ((List.range (seriesLen disc)).filter (anomalyCond sq disc w nstd)).map
      (mkAnomaly sq disc w nstd)

/-- Result of calculate_spending_threshold; none models the NaN standard
deviation that pandas returns for a single per-day sum. -/
structure ThresholdInfo where
  avgDailySpending : ℚ
  threshold : Option ℚ
  std : Option ℚ
  deriving DecidableEq, Repr

/-- Embedding of TimeSeriesAnalyzer.calculate_spending_threshold. With no
discretionary rows it returns the all-zero dictionary. Otherwise the mean
of the object-dtype Decimal per-day sums succeeds, but
daily_spending.std() raises TypeError inside pandas nanvar, which
subtracts the Decimal values from a float mean, so the call never returns
its statistics. The square-root oracle the std call would consume is kept
in the signature but the call raises before any root is taken. -/
def calculateSpendingThreshold (sq : SqrtFn) (df : List Txn) :
    Except String ThresholdInfo :=
  let disc := discretionaryOf df
  if disc.isEmpty then
    .ok { avgDailySpending := 0, threshold := some 0, std := some 0 }
  else .error "TypeError"

/-- Result dictionary analyze_seasonality actually returns: only the
error-bearing shapes are reachable, because building the full result dict
evaluates float(daily_spending.std()) on the object-dtype Decimal daily
series and raises TypeError for every series of at least 14 points. The
seasonal_decompose branch and its try block are therefore dead code and
are not modelled. -/
structure SeasonalityResult where
  error : Option String := none
  deriving DecidableEq, Repr

/-- Embedding of TimeSeriesAnalyzer.analyze_seasonality, including the
TypeError its std call raises (pandas nanvar subtracts the Decimal values
from a float mean) before the decomposition code can run. -/
def analyzeSeasonality (df : List Txn) : Except String SeasonalityResult :=
  if df.isEmpty then .ok { error := some "No data available" }
  else if (dailySeries df).length < 14 then
    .ok { error := some "Insufficient data for seasonality analysis (need at least 14 days)" }
  else .error "TypeError"

/-- Confirmed recurring-payment record of the store. -/
structure RecurringPaymentRec where
  name : String
  amount : ℚ
  frequency : Freq
  dueDay : Nat
  startDate : Date
  endDate : Option Date
  category : Option String
  isActive : Bool
  confirmedByUser : Bool
  deriving DecidableEq, Repr

/-- Loop body of ForecastEngine._calculate_occurrences. The lastPd
argument threads the payment_date local of the Python loop: reading it
while still unbound, as the quarterly and annual except branches do on
their first invalid date, is the UnboundLocalError of the source. An
invalid date from the uncaught month advance of the monthly branch is its
ValueError. Fuel bounds the while loop; every window the engine builds is
30 days, for which the fuel passed below suffices. -/
def occLoop (p : RecurringPaymentRec) (startD endD : Date) :
    Nat → Date → Option Date → List Date → Except String (List Date)
  | 0, _, _, _ => .error "fuel exhausted"
  | fuel + 1, cur, lastPd, acc =>
    if ¬ DateLe cur endD then .ok acc
    else if (match p.endDate with | some e => decide (DateLt e cur) | none => false) then .ok acc
    else
      match p.frequency with
      | .monthly =>
        let att := mkValidDate cur.year cur.month p.dueDay
        let acc2 :=
          match att with
          | some pd => if DateLe startD pd ∧ DateLe pd endD then acc ++ [pd] else acc
          | none => acc
        let lp2 := match att with | some pd => some pd | none => lastPd
        let adv :=
          if cur.month = 12 then mkValidDate (cur.year + 1) 1 cur.day
          else mkValidDate cur.year (cur.month + 1) cur.day
        match adv with
        | some nxt => occLoop p startD endD fuel nxt lp2 acc2
        | none => .error "ValueError"
      | .weekly =>
        let ahead0 : Int := (p.dueDay : Int) - (weekday cur : Int)
        let ahead : Int := if ahead0 ≤ 0 then ahead0 + 7 else ahead0
        let pd := addDays cur ahead.toNat
        let acc2 := if DateLe startD pd ∧ DateLe pd endD then acc ++ [pd] else acc
        occLoop p startD endD fuel (addDays pd 7) (some pd) acc2
      | .biweekly =>
        let ahead0 : Int := (p.dueDay : Int) - (weekday cur : Int)
        let ahead : Int := if ahead0 ≤ 0 then ahead0 + 14 else ahead0
        let pd := addDays cur ahead.toNat
        let acc2 := if DateLe startD pd ∧ DateLe pd endD then acc ++ [pd] else acc
        occLoop p startD endD fuel (addDays pd 14) (some pd) acc2
      | .quarterly =>
        let m0 := cur.month + 3
        let y := if 12 < m0 then cur.year + 1 else cur.year
        let m := if 12 < m0 then m0 - 12 else m0
        match mkValidDate y m p.dueDay with
        | some pd =>
          let acc2 := if DateLe startD pd ∧ DateLe pd endD then acc ++ [pd] else acc
          occLoop p startD endD fuel pd (some pd) acc2
        | none =>
          match lastPd with
          | some stale => occLoop p startD endD fuel stale lastPd acc
          | none => .error "UnboundLocalError"
      | .annual =>
        match mkValidDate (cur.year + 1) cur.month cur.day with
        | some pd =>
          let acc2 := if DateLe startD pd ∧ DateLe pd endD then acc ++ [pd] else acc
          occLoop p startD endD fuel pd (some pd) acc2
        | none =>
          match lastPd with
          | some stale => occLoop p startD endD fuel stale lastPd acc
          | none => .error "UnboundLocalError"

/-- Embedding of ForecastEngine._calculate_occurrences: the cursor starts
at max(start_date, payment.start_date) and payment_date is unbound. -/
def calculateOccurrences (p : RecurringPaymentRec) (startD endD : Date)
    (fuel : Nat) : Except String (List Date) :=
  occLoop p startD endD fuel (maxDateB startD p.startDate) none []

/-- Scheduled-payment entry of the forecast. -/
structure ScheduleEntry where
  date : Date
  name : String
  amount : ℚ
  category : String
  deriving DecidableEq, Repr

/-- Accumulation of deterministic spend and schedule entries over the
confirmed payments, in store order, errors propagating. -/
def gatherSchedule (startD endD : Date) (fuel : Nat) :
    List RecurringPaymentRec → Except String (ℚ × List ScheduleEntry)
  | [] => .ok (0, [])
  | p :: ps =>
    match calculateOccurrences p startD endD fuel with
    | .error e => .error e
    | .ok occs =>
      match gatherSchedule startD endD fuel ps with
      | .error e => .error e
      | .ok (det, sched) =>
        .ok ((occs.length : ℚ) * p.amount + det,
          (occs.map (fun d =>
            ({ date := d
               name := p.name
               amount := p.amount
               category := p.category.getD "Uncategorized" } : ScheduleEntry))) ++ sched)

/-- Forecast dictionary returned by forecast_next_month. -/
structure ForecastResult where
  periodStart : Date
  periodEnd : Date
  deterministicSpend : ℚ
  projectedDiscretionary : ℚ
  totalForecast : ℚ
  paymentSchedule : List ScheduleEntry
  avgDailyDiscretionary : ℚ
  unusualSpendingThreshold : Option ℚ
  deriving DecidableEq, Repr

/-- Wall clock observed by datetime.now(): the current date plus the time
of day, which forecast_next_month discards through the date() call. -/
structure WallClock where
  date : Date
  minutesIntoDay : Nat
  deriving DecidableEq, Repr

/-- Embedding of ForecastEngine.forecast_next_month. Today comes from the
ambient wall clock, not from a parameter of the engine; the stored
payments and the transaction dataset are the collaborator inputs. -/
def forecastNextMonth (sq : SqrtFn) (payments : List RecurringPaymentRec)
    (txns : List Txn) (clock : WallClock) (fuel : Nat) :
    Except String ForecastResult :=
  let today := clock.date
  let forecastEnd := addDays today 30
  let confirmed := payments.filter (fun p => p.isActive && p.confirmedByUser)
  match gatherSchedule today forecastEnd fuel confirmed with
  | .error e => .error e
  | .ok (det, sched) =>
    let txWindow := txns.filter (fun t => decide (DateLe (subDays today 90) t.date))
    match calculateSpendingThreshold sq txWindow with
    | .error e => .error e
    | .ok ti =>
    let avgd := ti.avgDailySpending
    let projected := avgd * 30
    .ok
      { periodStart := today
        periodEnd := forecastEnd
        deterministicSpend := det
        projectedDiscretionary := projected
        totalForecast := det + projected
        paymentSchedule := sortLe (fun a b => decide (DateLe a.date b.date)) sched
        avgDailyDiscretionary := avgd
        unusualSpendingThreshold := ti.threshold }

/-- Quarterly payment whose first quarter advance lands on an invalid
date (2024-02-30): the except branch then reads the unbound payment_date. -/
def c1QuarterlyPayment : RecurringPaymentRec :=
  { name := "Insurance", amount := 100, frequency := .quarterly, dueDay := 30,
    startDate := ⟨2023, 1, 1⟩, endDate := none, category := none,
    isActive := true, confirmedByUser := true }

/-- Annual payment evaluated from a leap day: the advanced date 2025-02-29
is invalid and the except branch reads the unbound payment_date. -/
def c1AnnualPayment : RecurringPaymentRec :=
  { name := "Domain", amount := 50, frequency := .annual, dueDay := 1,
    startDate := ⟨2020, 1, 1⟩, endDate := none, category := none,
    isActive := true, confirmedByUser := true }

/-- Description group of three zero-amount transactions: its mean amount
is zero and the tolerance check divides zero by zero. -/
def c2ZeroMeanDf : List Txn :=
  [⟨1, ⟨2024, 1, 1⟩, 0, "GymFree", none, false⟩,
   ⟨2, ⟨2024, 1, 31⟩, 0, "GymFree", none, false⟩,
   ⟨3, ⟨2024, 3, 1⟩, 0, "GymFree", none, false⟩]

/-- Weekly payment due on Monday. -/
def c3WeeklyPayment : RecurringPaymentRec :=
  { name := "Gym", amount := 20, frequency := .weekly, dueDay := 0,
    startDate := ⟨2023, 1, 1⟩, endDate := none, category := none,
    isActive := true, confirmedByUser := true }

/-- Biweekly payment due on Monday. -/
def c3BiweeklyPayment : RecurringPaymentRec :=
  { name := "Cleaner", amount := 60, frequency := .biweekly, dueDay := 0,
    startDate := ⟨2023, 1, 1⟩, endDate := none, category := none,
    isActive := true, confirmedByUser := true }

/-- Monthly payment with due day 31. -/
def c5MonthlyPayment : RecurringPaymentRec :=
  { name := "Rent", amount := 1200, frequency := .monthly, dueDay := 31,
    startDate := ⟨2023, 1, 1⟩, endDate := none, category := none,
    isActive := true, confirmedByUser := true }

/-- Description group of identical-amount transactions over a given date
list, with ids counted from a start index: the shape of every group the
30-day-regular scenario quantifies over. -/
def mkGroupDf (desc : String) (a : ℚ) : List Date → Nat → List Txn
  | [], _ => []
  | d :: ds, i => ⟨i, d, a, desc, none, false⟩ :: mkGroupDf desc a ds (i + 1)

/-- Dates of three transactions spaced exactly 30 days apart. -/
def c6RegularDates : List Date :=
  [⟨2024, 1, 1⟩, ⟨2024, 1, 31⟩, ⟨2024, 3, 1⟩]

/-- Identical-amount group whose common amount is zero, spaced exactly 30
days apart at least three times. -/
def c6ZeroAmountDf : List Txn :=
  [⟨1, ⟨2024, 1, 1⟩, 0, "FreeTrial", none, false⟩,
   ⟨2, ⟨2024, 1, 31⟩, 0, "FreeTrial", none, false⟩,
   ⟨3, ⟨2024, 3, 1⟩, 0, "FreeTrial", none, false⟩]

/-- Small dataset with two discretionary days. -/
def c8WitnessDf : List Txn :=
  [⟨1, ⟨2024, 2, 1⟩, 10, "Cafe", none, false⟩,
   ⟨2, ⟨2024, 2, 2⟩, 20, "Cafe", none, false⟩,
   ⟨3, ⟨2024, 2, 2⟩, 700, "Rent", none, true⟩]

/-- Dataset whose dense daily series has exactly 30 points. -/
def c9LongDf : List Txn :=
  [⟨1, ⟨2024, 1, 1⟩, 1, "Cafe", none, false⟩,
   ⟨2, ⟨2024, 1, 30⟩, 2, "Cafe", none, false⟩]

/-- Dataset whose dense daily series has fewer than 14 points. -/
def c9ShortDf : List Txn :=
  [⟨1, ⟨2024, 1, 1⟩, 1, "Cafe", none, false⟩,
   ⟨2, ⟨2024, 1, 5⟩, 2, "Cafe", none, false⟩]

/-- Dataset with recurring rows only: its discretionary subset is empty. -/
def c8EmptyDiscDf : List Txn :=
  [⟨1, ⟨2024, 2, 1⟩, 700, "Rent", none, true⟩]

/-- Discretionary dataset whose largest spending is on its first day. -/
def c10WitnessDf : List Txn :=
  [⟨1, ⟨2024, 3, 1⟩, 1000, "Spree", none, false⟩,
   ⟨2, ⟨2024, 3, 2⟩, 1, "Cafe", none, false⟩]

/-- Unfolding of the strict date order into arithmetic on the fields. -/
theorem DateLt_iff (a b : Date) :
    DateLt a b ↔
      (a.year < b.year ∨
        (a.year = b.year ∧
          (a.month < b.month ∨ (a.month = b.month ∧ a.day < b.day)))) := by
  unfold DateLt dateLtB
  simp [Bool.or_eq_true, Bool.and_eq_true, decide_eq_true_eq, beq_iff_eq]

/-- Strict date order is irreflexive. -/
theorem dateLt_irrefl (a : Date) : ¬ DateLt a a := by
  rw [DateLt_iff]; omega

/-- Strict date order is transitive. -/
theorem dateLt_trans {a b c : Date} (h1 : DateLt a b) (h2 : DateLt b c) :
    DateLt a c := by
  rw [DateLt_iff] at h1 h2 ⊢; omega

/-- Strictly ordered dates differ. -/
theorem dateLt_ne {a b : Date} (h : DateLt a b) : a ≠ b := by
  intro he; subst he; exact dateLt_irrefl a h

/-- Every date precedes its successor day. -/
theorem lt_nextDay (d : Date) : DateLt d (nextDay d) := by
  unfold nextDay
  split
  · rw [DateLt_iff]; simp
  · split
    · rw [DateLt_iff]; simp
    · rw [DateLt_iff]; simp

/-- Adding a positive number of days moves a date strictly later. -/
theorem lt_addDays : ∀ (n : Nat) (d : Date), 0 < n → DateLt d (addDays d n)
  | 0, _, h => absurd h (by omega)
  | 1, d, _ => lt_nextDay d
  | n + 2, d, _ =>
    dateLt_trans (lt_nextDay d) (lt_addDays (n + 1) (nextDay d) (by omega))

/-- Day addition composes over sums. -/
theorem addDays_add (d : Date) (a b : Nat) :
    addDays d (a + b) = addDays (addDays d a) b := by
  induction a generalizing d with
  | zero => simp [addDays]
  | succ a ih =>
    have h1 : a + 1 + b = (a + b) + 1 := by omega
    rw [h1]
    show addDays (nextDay d) (a + b) = addDays (addDays (nextDay d) a) b
    exact ih (nextDay d)

/-- Day addition is strictly monotone in the count. -/
theorem addDays_lt_addDays (d : Date) {k1 k2 : Nat} (h : k1 < k2) :
    DateLt (addDays d k1) (addDays d k2) := by
  have h1 : k2 = k1 + (k2 - k1) := by omega
  rw [h1, addDays_add]
  exact lt_addDays (k2 - k1) (addDays d k1) (by omega)

/-- Day addition is injective in the count. -/
theorem addDays_inj (d : Date) {k1 k2 : Nat}
    (h : addDays d k1 = addDays d k2) : k1 = k2 := by
  rcases Nat.lt_trichotomy k1 k2 with hlt | heq | hgt
  · exact absurd (h ▸ addDays_lt_addDays d hlt) (dateLt_irrefl _)
  · exact heq
  · exact absurd (h ▸ addDays_lt_addDays d hgt) (dateLt_irrefl _)

/-- Membership is preserved by sorted insertion. -/
theorem mem_insertLe {α : Type} (le : α → α → Bool) (x a : α) :
    ∀ l : List α, a ∈ insertLe le x l ↔ a = x ∨ a ∈ l
  | [] => by simp [insertLe]
  | y :: ys => by
    unfold insertLe
    split
    · simp
    · simp [mem_insertLe le x a ys]
      tauto

/-- Membership is preserved by the insertion sort. -/
theorem mem_sortLe {α : Type} (le : α → α → Bool) (a : α) :
    ∀ l : List α, a ∈ sortLe le l ↔ a ∈ l
  | [] => by simp [sortLe]
  | x :: xs => by
    unfold sortLe
    rw [mem_insertLe, mem_sortLe le a xs]
    simp

/-- Any candidate a group produces carries confidence strictly above 0.7,
because the source appends only under that guard. -/
theorem processGroup_conf {sq : SqrtFn} {minOcc : Nat} {tol : ℚ} {key : String}
    {g : List Txn} {p : RecurringPattern}
    (h : processGroup sq minOcc tol key g = .ok (some p)) :
    (7 : ℚ) / 10 < p.confidence := by
  unfold processGroup at h
  split at h
  · simp at h
  · dsimp only at h
    split at h
    · simp at h
    · split at h
      · split at h
        · simp at h
        · split at h
          · simp at h
          · split at h
            · simp only [Except.ok.injEq, Option.some.injEq] at h
              subst h
              rename_i hguard
              simpa using hguard
            · simp at h
      · simp at h

/-- Every pattern accumulated over the groups carries confidence strictly
above 0.7. -/
theorem buildPatterns_conf {sq : SqrtFn} {minOcc : Nat} {tol : ℚ} :
    ∀ {gs : List (String × List Txn)} {ps : List RecurringPattern},
      buildPatterns sq minOcc tol gs = .ok ps →
      ∀ p ∈ ps, (7 : ℚ) / 10 < p.confidence := by
  intro gs
  induction gs with
  | nil =>
    intro ps h p hp
    simp [buildPatterns] at h
    subst h
    simp at hp
  | cons hd tl ih =>
    intro ps h p hp
    obtain ⟨k, g⟩ := hd
    unfold buildPatterns at h
    split at h
    · simp at h
    · exact ih h p hp
    · rename_i p0 heq
      split at h
      · simp at h
      · rename_i ps0 heq2
        simp at h
        subst h
        rcases List.mem_cons.mp hp with h1 | h1
        · subst h1; exact processGroup_conf heq
        · exact ih heq2 p h1

/-- Unfolding of the anomaly condition into the threshold comparison and
the positivity requirement. -/
theorem anomalyCond_iff (sq : SqrtFn) (df : List Txn) (w : Nat) (nstd : ℚ)
    (k : Nat) :
    anomalyCond sq df w nstd k = true ↔
      ((∃ t, rollThreshold sq df w nstd k = some t ∧ t < dailyAmount df k) ∧
        0 < dailyAmount df k) := by
  unfold anomalyCond
  cases h : rollThreshold sq df w nstd k with
  | none => simp [h]
  | some t => simp [h]

/-- Characterization of membership in the detect_anomalies output. -/
theorem mem_detectAnomalies (sq : SqrtFn) (df : List Txn) (nstd : ℚ) (w : Nat)
    (rec : AnomalyRecord) :
    rec ∈ detectAnomalies sq df nstd w ↔
      ∃ k, k < seriesLen (discretionaryOf df) ∧
        anomalyCond sq (discretionaryOf df) w nstd k = true ∧
        rec = mkAnomaly sq (discretionaryOf df) w nstd k := by
  unfold detectAnomalies
  dsimp only
  split
  · rename_i hemp
    have hz : seriesLen (discretionaryOf df) = 0 := by
      unfold seriesLen
      simp [hemp]
    simp [hz]
  · simp only [List.mem_map, List.mem_filter, List.mem_range]
    constructor
    · rintro ⟨k, ⟨hk, hc⟩, heq⟩
      exact ⟨k, hk, hc, heq.symm⟩
    · rintro ⟨k, hk, hc, heq⟩
      exact ⟨k, ⟨hk, hc⟩, heq.symm⟩

/-- The rolling standard deviation at the first day of the series is the
NaN of a single-sample window. -/
theorem rollStd_zero (sq : SqrtFn) (df : List Txn) (w : Nat) :
    rollStd sq df w 0 = none := by
  unfold rollStd
  simp

/-- Threshold comparisons with the first day of the series always fail. -/
theorem anomalyCond_zero (sq : SqrtFn) (df : List Txn) (w : Nat) (nstd : ℚ) :
    anomalyCond sq df w nstd 0 = false := by
  unfold anomalyCond rollThreshold
  rw [rollStd_zero]
  simp

/-- C1: the claim says a quarterly or annual occurrence computation skips
an invalid advanced date silently and keeps evaluating. In the source the
except branch then executes current_date = payment_date with payment_date
still unbound, so the first invalid advanced date raises
UnboundLocalError instead: a quarterly payment with due day 30 advanced
from 2023-11-15 lands on the invalid 2024-02-30, and an annual payment
advanced from the leap day 2024-02-29 lands on the invalid 2025-02-29;
both runs error instead of skipping the period. -/
theorem c1_quarterly_annual_invalid_date_crashes :
    calculateOccurrences c1QuarterlyPayment ⟨2023, 11, 15⟩ ⟨2023, 12, 15⟩ 100 =
        .error "UnboundLocalError"
      ∧ calculateOccurrences c1AnnualPayment ⟨2024, 2, 29⟩ ⟨2024, 3, 30⟩ 100 =
        .error "UnboundLocalError" := by
  constructor
  · rfl
  · rfl

/-- C2: the claim says a description group with zero mean amount performs
no division by zero and is silently excluded. The amounts are Decimal
values, so abs(amt - mean) / mean with mean zero raises a decimal
exception that detect_recurring_patterns does not catch: on a group of
three zero-amount transactions the call errors instead of returning a
list. -/
theorem c2_zero_mean_group_raises :
    detectRecurringPatterns zeroSqrt c2ZeroMeanDf 3 (1 / 20) =
      .error "decimal.InvalidOperation" := by
  have hmu : qmean (List.map (fun t => t.amount) c2ZeroMeanDf) = 0 := by
    norm_num [c2ZeroMeanDf, qmean, qsum]
  have hwtc : withinToleranceChk (List.map (fun t => t.amount) c2ZeroMeanDf)
      (qmean (List.map (fun t => t.amount) c2ZeroMeanDf)) (1 / 20) =
      .error "decimal.InvalidOperation" := by
    unfold withinToleranceChk
    rw [if_pos hmu]
    norm_num [c2ZeroMeanDf]
  have hproc : processGroup zeroSqrt 3 (1 / 20) "GymFree" c2ZeroMeanDf =
      .error "decimal.InvalidOperation" := by
    unfold processGroup
    rw [if_neg (by decide)]
    dsimp only
    rw [hwtc]
  have hkeys : groupKeys c2ZeroMeanDf = ["GymFree"] := by decide
  have hfil : c2ZeroMeanDf.filter (fun t => t.description == "GymFree") =
      c2ZeroMeanDf := by
    norm_num [c2ZeroMeanDf]
  unfold detectRecurringPatterns
  rw [if_neg (by decide), hkeys]
  simp only [List.map_cons, List.map_nil, hfil]
  unfold buildPatterns
  rw [hproc]

set_option maxRecDepth 8000 in
/-- C3: the claim says the first weekly or biweekly occurrence is the
next date on or after the cursor with the due day of week, and that
subsequent occurrences step by 7 or 14 days. In the source days_ahead is
forced positive when the cursor already matches, and the cursor then
jumps to payment_date plus another period, so from Monday 2024-01-01 with
due day Monday the weekly schedule is [Jan 8, Jan 22] - the matching
cursor date is skipped and the steps are 14 days - and the biweekly
schedule is [Jan 15] with 28-day steps. -/
theorem c3_weekly_biweekly_schedule_diverges :
    weekday ⟨2024, 1, 1⟩ = 0
      ∧ calculateOccurrences c3WeeklyPayment ⟨2024, 1, 1⟩ ⟨2024, 1, 31⟩ 100 =
        .ok [⟨2024, 1, 8⟩, ⟨2024, 1, 22⟩]
      ∧ calculateOccurrences c3BiweeklyPayment ⟨2024, 1, 1⟩ ⟨2024, 1, 31⟩ 100 =
        .ok [⟨2024, 1, 15⟩] := by
  refine ⟨by decide, rfl, rfl⟩

/-- C5: the claim says a monthly payment with due day 31 produces zero
occurrences in a 30-day month without error or clamping. The occurrence
date construction is guarded, but the month advance
current_date.replace(month=month+1) is not: starting from 2024-05-31 the
advance builds the invalid 2024-06-31 and raises ValueError, so the
30-day target month June yields an error, not zero occurrences. From a
cursor whose day is valid in the next month the claimed behavior does
hold: from 2024-06-01 June yields no occurrence and no error, and from
2024-03-15 the 31-day month March yields its occurrence. -/
theorem c5_monthly_due31_advance_crashes :
    calculateOccurrences c5MonthlyPayment ⟨2024, 5, 31⟩ ⟨2024, 6, 30⟩ 100 =
        .error "ValueError"
      ∧ calculateOccurrences c5MonthlyPayment ⟨2024, 6, 1⟩ ⟨2024, 7, 1⟩ 100 =
        .ok []
      ∧ calculateOccurrences c5MonthlyPayment ⟨2024, 3, 15⟩ ⟨2024, 4, 14⟩ 100 =
        .ok [⟨2024, 3, 31⟩] := by
  refine ⟨rfl, rfl, rfl⟩

/-- C4 counterexample: today is not an injected parameter of
forecast_next_month; it is read from the ambient wall clock through
datetime.now().date(). Two runs over identical stored inputs (no
payments, no transactions) but different wall-clock dates produce
different forecasts, so the forecast is not a function of the claimed
injected inputs alone. -/
theorem c4_forecast_depends_on_wall_clock :
    forecastNextMonth zeroSqrt [] [] ⟨⟨2024, 1, 1⟩, 0⟩ 100 ≠
      forecastNextMonth zeroSqrt [] [] ⟨⟨2024, 1, 2⟩, 0⟩ 100 := by
  intro h
  have h2 := congrArg (Except.map (fun r => r.periodStart)) h
  revert h2
  decide

/-- C4 amended: forecast_next_month is deterministic given the
transaction set, the recurring-payment records and the wall-clock date at
the call, which it reads via datetime.now().date() rather than taking as
a parameter; the time of day is discarded, so any two calls on the same
date with identical stored inputs yield identical forecasts. -/
theorem c4_forecast_deterministic_given_date :
    ∀ (sq : SqrtFn) (payments : List RecurringPaymentRec) (txns : List Txn)
      (d : Date) (t1 t2 : Nat) (fuel : Nat),
      forecastNextMonth sq payments txns ⟨d, t1⟩ fuel =
        forecastNextMonth sq payments txns ⟨d, t2⟩ fuel := by
  intro sq payments txns d t1 t2 fuel
  rfl

/-- C10: the earliest day of the discretionary daily series is never
reported by detect_anomalies: with minimum period 1 its single-sample
rolling deviation is NaN, so its threshold comparison cannot succeed,
regardless of the amount spent that day. -/
theorem c10_first_day_never_anomalous :
    ∀ (sq : SqrtFn) (df : List Txn) (nstd : ℚ) (w : Nat), 0 < w →
      ∀ rec ∈ detectAnomalies sq df nstd w,
        rec.date ≠ seriesStart (discretionaryOf df) := by
  intro sq df nstd w _ rec hrec
  rw [mem_detectAnomalies] at hrec
  obtain ⟨k, _, hc, heq⟩ := hrec
  subst heq
  have hk0 : k ≠ 0 := by
    intro h0
    subst h0
    rw [anomalyCond_zero] at hc
    exact Bool.false_ne_true hc
  have hd : (mkAnomaly sq (discretionaryOf df) w nstd k).date =
      addDays (seriesStart (discretionaryOf df)) k := rfl
  rw [hd]
  intro hcontra
  have hlt : DateLt (seriesStart (discretionaryOf df))
      (addDays (seriesStart (discretionaryOf df)) k) :=
    lt_addDays k _ (Nat.pos_of_ne_zero hk0)
  exact dateLt_ne hlt hcontra.symm

/-- C6 counterexample: the claim promises exactly one candidate for every
perfectly regular group of identical amounts, but with identical zero
amounts the tolerance check divides by the zero mean and the call raises
instead of returning a candidate list. -/
theorem c6_zero_amount_group_errors :
    detectRecurringPatterns zeroSqrt c6ZeroAmountDf 3 (1 / 20) =
      .error "decimal.InvalidOperation" := by
  have hmu : qmean (List.map (fun t => t.amount) c6ZeroAmountDf) = 0 := by
    norm_num [c6ZeroAmountDf, qmean, qsum]
  have hwtc : withinToleranceChk (List.map (fun t => t.amount) c6ZeroAmountDf)
      (qmean (List.map (fun t => t.amount) c6ZeroAmountDf)) (1 / 20) =
      .error "decimal.InvalidOperation" := by
    unfold withinToleranceChk
    rw [if_pos hmu]
    norm_num [c6ZeroAmountDf]
  have hproc : processGroup zeroSqrt 3 (1 / 20) "FreeTrial" c6ZeroAmountDf =
      .error "decimal.InvalidOperation" := by
    unfold processGroup
    rw [if_neg (by decide)]
    dsimp only
    rw [hwtc]
  have hkeys : groupKeys c6ZeroAmountDf = ["FreeTrial"] := by decide
  have hfil : c6ZeroAmountDf.filter (fun t => t.description == "FreeTrial") =
      c6ZeroAmountDf := rfl
  unfold detectRecurringPatterns
  rw [if_neg (by decide), hkeys]
  simp only [List.map_cons, List.map_nil, hfil]
  unfold buildPatterns
  rw [hproc]

/-- C10 witness: the first-day exclusion instantiated on a concrete
dataset whose largest spending is on its first day. -/
theorem c10_first_day_witness :
    0 < 30 ∧
      (∀ rec ∈ detectAnomalies zeroSqrt c10WitnessDf 2 30,
        rec.date ≠ seriesStart (discretionaryOf c10WitnessDf)) :=
  ⟨by decide, c10_first_day_never_anomalous zeroSqrt c10WitnessDf 2 30 (by decide)⟩

theorem qsum_cons (x : ℚ) (l : List ℚ) : qsum (x :: l) = x + qsum l := rfl

theorem qsum_replicate : ∀ (m : Nat) (c : ℚ), qsum (List.replicate m c) = m * c
  | 0, c => by simp [qsum]
  | m + 1, c => by
    rw [List.replicate_succ, qsum_cons, qsum_replicate m c]
    push_cast
    ring

theorem qmean_replicate (m : Nat) (c : ℚ) (h : 1 ≤ m) :
    qmean (List.replicate m c) = c := by
  have hm : (m : ℚ) ≠ 0 := Nat.cast_ne_zero.mpr (by omega)
  unfold qmean
  rw [qsum_replicate, List.length_replicate, mul_comm, mul_div_assoc,
    div_self hm, mul_one]

theorem popVar_replicate (m : Nat) (c : ℚ) (h : 1 ≤ m) :
    popVar (List.replicate m c) = 0 := by
  unfold popVar
  rw [qmean_replicate m c h, List.map_replicate]
  simp [qsum_replicate]

theorem insertLe_replicate (c : ℚ) :
    ∀ k, insertLe (fun a b => decide (a ≤ b)) c (List.replicate k c) =
      List.replicate (k + 1) c
  | 0 => rfl
  | k + 1 => by
    rw [List.replicate_succ]
    unfold insertLe
    rw [if_pos (by simp)]
    rfl

theorem sortLe_replicate (c : ℚ) :
    ∀ k, sortLe (fun a b => decide (a ≤ b)) (List.replicate k c) =
      List.replicate k c
  | 0 => rfl
  | k + 1 => by
    rw [List.replicate_succ]
    unfold sortLe
    rw [sortLe_replicate c k, insertLe_replicate]
    rfl

theorem getD_replicate (m i : Nat) (c : ℚ) (h : i < m) :
    (List.replicate m c).getD i 0 = c := by
  simp [List.getD, List.getElem?_replicate, h]

theorem medianQ_replicate (m : Nat) (c : ℚ) (h : 1 ≤ m) :
    medianQ (List.replicate m c) = c := by
  unfold medianQ
  dsimp only
  rw [sortLe_replicate, List.length_replicate]
  rw [if_neg (by omega)]
  by_cases hp : m % 2 = 1
  · rw [if_pos hp, getD_replicate m (m / 2) c (by omega)]
  · rw [if_neg hp, getD_replicate m (m / 2 - 1) c (by omega),
      getD_replicate m (m / 2) c (by omega)]
    ring

theorem detectFrequency_replicate30 (m : Nat) (h : 1 ≤ m) :
    detectFrequencyFn (List.replicate m (30 : ℚ)) = some .monthly := by
  have hne : (List.replicate m (30 : ℚ)).isEmpty = false := by
    rw [List.isEmpty_eq_false]
    simp
    omega
  unfold detectFrequencyFn
  rw [hne]
  simp only [Bool.false_eq_true, if_false]
  rw [medianQ_replicate m 30 h]
  norm_num [freqBands, List.find?]

theorem confidence_replicate30 (sq : SqrtFn) (m : Nat) (h : 1 ≤ m) :
    calculateConfidence sq (List.replicate m (30 : ℚ)) .monthly = 1 := by
  have hne : (List.replicate m (30 : ℚ)).isEmpty = false := by
    rw [List.isEmpty_eq_false]
    simp
    omega
  unfold calculateConfidence
  rw [hne]
  simp only [Bool.false_eq_true, if_false]
  rw [qmean_replicate m 30 h, popVar_replicate m 30 h, sq.zero]
  norm_num [frequencyDays]

theorem withinTolerance_replicate (a : ℚ) (n : Nat) (ha : a ≠ 0) :
    withinToleranceChk (List.replicate n a) a (1 / 20) = .ok true := by
  unfold withinToleranceChk
  rw [if_neg ha]
  congr 1
  rw [List.all_eq_true]
  intro x hx
  rw [List.eq_of_mem_replicate hx]
  simp

theorem mkGroupDf_length (desc : String) (a : ℚ) :
    ∀ (ds : List Date) (i : Nat), (mkGroupDf desc a ds i).length = ds.length
  | [], _ => rfl
  | _ :: ds, i => by
    unfold mkGroupDf
    rw [List.length_cons, List.length_cons, mkGroupDf_length desc a ds (i + 1)]

theorem mkGroupDf_map_date (desc : String) (a : ℚ) :
    ∀ (ds : List Date) (i : Nat),
      (mkGroupDf desc a ds i).map (fun t => t.date) = ds
  | [], _ => rfl
  | _ :: ds, i => by
    unfold mkGroupDf
    rw [List.map_cons, mkGroupDf_map_date desc a ds (i + 1)]

theorem mkGroupDf_map_amount (desc : String) (a : ℚ) :
    ∀ (ds : List Date) (i : Nat),
      (mkGroupDf desc a ds i).map (fun t => t.amount) =
        List.replicate ds.length a
  | [], _ => rfl
  | _ :: ds, i => by
    unfold mkGroupDf
    rw [List.map_cons, mkGroupDf_map_amount desc a ds (i + 1), List.length_cons,
      List.replicate_succ]

theorem mkGroupDf_desc (desc : String) (a : ℚ) :
    ∀ (ds : List Date) (i : Nat) (t : Txn), t ∈ mkGroupDf desc a ds i →
      t.description = desc
  | [], _, t, ht => by simp [mkGroupDf] at ht
  | d :: ds, i, t, ht => by
    unfold mkGroupDf at ht
    rcases List.mem_cons.mp ht with h | h
    · rw [h]
    · exact mkGroupDf_desc desc a ds (i + 1) t h

theorem groupKeys_fold_mem (desc : String) :
    ∀ (l : List Txn) (acc : List String), (∀ t ∈ l, t.description = desc) →
      desc ∈ acc →
      l.foldl (fun acc t =>
        if t.description ∈ acc then acc else acc ++ [t.description]) acc = acc
  | [], _, _, _ => rfl
  | t :: rest, acc, h, hmem => by
    rw [List.foldl_cons, if_pos (by rw [h t (List.mem_cons_self t rest)]; exact hmem)]
    exact groupKeys_fold_mem desc rest acc (fun u hu => h u (List.mem_cons_of_mem t hu)) hmem

theorem groupKeys_const (desc : String) (df : List Txn)
    (h : ∀ t ∈ df, t.description = desc) (hne : df ≠ []) :
    groupKeys df = [desc] := by
  match df, hne with
  | t :: rest, _ =>
    unfold groupKeys
    rw [List.foldl_cons, if_neg (List.not_mem_nil _), List.nil_append,
      h t (List.mem_cons_self t rest)]
    exact groupKeys_fold_mem desc rest [desc]
      (fun u hu => h u (List.mem_cons_of_mem t hu)) (List.mem_singleton.mpr rfl)

theorem filter_desc_self (desc : String) (df : List Txn)
    (h : ∀ t ∈ df, t.description = desc) :
    df.filter (fun t => t.description == desc) = df := by
  rw [List.filter_eq_self]
  intro t ht
  rw [h t ht]
  simp

theorem processGroup_regular (sq : SqrtFn) (desc : String) (a : ℚ)
    (dates : List Date) (ha : a ≠ 0) (hn : 3 ≤ dates.length)
    (hg : dateGaps dates = List.replicate (dates.length - 1) 30) :
    ∃ p, processGroup sq 3 (1 / 20) desc (mkGroupDf desc a dates 1) =
        .ok (some p) ∧ p.frequency = .monthly ∧ p.confidence = 1 := by
  have hlen := mkGroupDf_length desc a dates 1
  have hie : (List.replicate (dates.length - 1) (30 : ℚ)).isEmpty = false := by
    rw [List.isEmpty_eq_false]
    simp
    omega
  unfold processGroup
  rw [if_neg (by omega)]
  simp only [mkGroupDf_map_amount, mkGroupDf_map_date]
  rw [qmean_replicate dates.length a (by omega)]
  rw [withinTolerance_replicate a dates.length ha]
  simp only [hg, hie, Bool.false_eq_true, if_false, if_true]
  rw [detectFrequency_replicate30 (dates.length - 1) (by omega)]
  simp only
  rw [confidence_replicate30 sq (dates.length - 1) (by omega)]
  rw [if_pos (by norm_num)]
  exact ⟨_, rfl, rfl, rfl⟩

/-- C6 (amended): for groups that reach the confidence computation the
confidence equals max(0, 1 - std(gaps)/mean(gaps) -
|mean(gaps) - expected| / expected); only candidates with confidence
strictly above 0.7 are emitted; and every group of identical nonzero
amounts under one description whose consecutive dates are exactly 30 days
apart, repeated at least 3 times, yields exactly one candidate, with
frequency monthly and confidence above 0.7. The nonzero qualification is
forced: with identical zero amounts the tolerance check raises instead
(see the zero-amount counterexample). -/
theorem c6_confidence_formula_and_monthly_scenario :
    ∀ sq : SqrtFn,
      (∀ (intervals : List ℚ) (f : Freq), intervals ≠ [] → qmean intervals ≠ 0 →
        calculateConfidence sq intervals f =
          max 0 (1 - sq.f (popVar intervals) / qmean intervals
                   - |qmean intervals - frequencyDays f| / frequencyDays f))
      ∧ (∀ (df : List Txn) (minOcc : Nat) (tol : ℚ) (ps : List RecurringPattern),
          detectRecurringPatterns sq df minOcc tol = .ok ps →
          ∀ p ∈ ps, (7 : ℚ) / 10 < p.confidence)
      ∧ (∀ (desc : String) (a : ℚ) (dates : List Date), a ≠ 0 →
          3 ≤ dates.length →
          dateGaps dates = List.replicate (dates.length - 1) 30 →
          ∃ p, detectRecurringPatterns sq (mkGroupDf desc a dates 1) 3 (1 / 20) =
              .ok [p] ∧ p.frequency = .monthly ∧ (7 : ℚ) / 10 < p.confidence) := by
  intro sq
  refine ⟨?_, ?_, ?_⟩
  · intro intervals f hne hmu
    have he : intervals.isEmpty = false := List.isEmpty_eq_false.mpr hne
    unfold calculateConfidence
    dsimp only
    rw [he]
    simp only [Bool.false_eq_true, if_false]
    rw [if_neg hmu]
  · intro df minOcc tol ps h p hp
    unfold detectRecurringPatterns at h
    split at h
    · simp only [Except.ok.injEq] at h
      subst h
      simp at hp
    · cases hb : buildPatterns sq minOcc tol
          ((groupKeys df).map fun k => (k, df.filter fun t => t.description == k)) with
      | error e => rw [hb] at h; simp at h
      | ok ps0 =>
        rw [hb] at h
        simp only [Except.ok.injEq] at h
        subst h
        unfold sortByConfidenceDesc at hp
        rw [mem_sortLe] at hp
        exact buildPatterns_conf hb p hp
  · intro desc a dates ha hn hg
    obtain ⟨p, hp, hf, hc⟩ := processGroup_regular sq desc a dates ha hn hg
    have hlen := mkGroupDf_length desc a dates 1
    have hdesc := fun t ht => mkGroupDf_desc desc a dates 1 t ht
    have hne : mkGroupDf desc a dates 1 ≠ [] := by
      intro hcontra
      rw [hcontra] at hlen
      simp at hlen
      omega
    refine ⟨p, ?_, hf, by rw [hc]; norm_num⟩
    unfold detectRecurringPatterns
    rw [if_neg (by omega)]
    rw [groupKeys_const desc _ hdesc hne]
    simp only [List.map_cons, List.map_nil]
    rw [filter_desc_self desc _ hdesc]
    unfold buildPatterns
    rw [hp]
    rfl

/-- C6 witness: the confidence formula instantiated on the concrete gap
list [30, 30] for the monthly class, and the 30-day-regular scenario
instantiated on three Netflix transactions of amount 15.99. -/
theorem c6_confidence_formula_witness :
    (([(30 : ℚ), 30] ≠ [] ∧ qmean [(30 : ℚ), 30] ≠ 0)
      ∧ calculateConfidence zeroSqrt [(30 : ℚ), 30] Freq.monthly =
        max 0 (1 - zeroSqrt.f (popVar [(30 : ℚ), 30]) / qmean [(30 : ℚ), 30]
                 - |qmean [(30 : ℚ), 30] - frequencyDays Freq.monthly| /
                   frequencyDays Freq.monthly))
    ∧ (((1599 / 100 : ℚ) ≠ 0 ∧ 3 ≤ c6RegularDates.length ∧
        dateGaps c6RegularDates = List.replicate (c6RegularDates.length - 1) 30)
      ∧ ∃ p, detectRecurringPatterns zeroSqrt
            (mkGroupDf "Netflix" (1599 / 100) c6RegularDates 1) 3 (1 / 20) =
          .ok [p] ∧ p.frequency = .monthly ∧ (7 : ℚ) / 10 < p.confidence) := by
  have h1 : [(30 : ℚ), 30] ≠ [] := by simp
  have h2 : qmean [(30 : ℚ), 30] ≠ 0 := by norm_num [qmean, qsum]
  have ha : (1599 / 100 : ℚ) ≠ 0 := by norm_num
  have hn : 3 ≤ c6RegularDates.length := by decide
  have hg : dateGaps c6RegularDates =
      List.replicate (c6RegularDates.length - 1) 30 := by decide
  exact ⟨⟨⟨h1, h2⟩,
      (c6_confidence_formula_and_monthly_scenario zeroSqrt).1 [(30 : ℚ), 30]
        Freq.monthly h1 h2⟩,
    ⟨⟨ha, hn, hg⟩,
      (c6_confidence_formula_and_monthly_scenario zeroSqrt).2.2 "Netflix"
        (1599 / 100) c6RegularDates ha hn hg⟩⟩

/-- C8: calculate_spending_threshold dictionary for an empty discretionary
set is the all-zero record, as the claim says; but the nonempty half of
the claim never executes: daily_spending holds per-day sums of Decimal
amounts in an object-dtype series, and daily_spending.std() runs pandas
nanvar, whose float mean minus Decimal values raises TypeError for every
nonempty discretionary dataset - contradicting the claim and the source's
own threshold test. -/
theorem c8_threshold_empty_ok_nonempty_raises :
    (∀ sq : SqrtFn, calculateSpendingThreshold sq c8EmptyDiscDf =
        .ok ⟨0, some 0, some 0⟩)
      ∧ (∀ sq : SqrtFn, calculateSpendingThreshold sq c8WitnessDf =
        .error "TypeError") := ⟨fun _ => rfl, fun _ => rfl⟩

set_option maxRecDepth 8000 in
/-- C9: the insufficient-data conjuncts of the claim hold - an empty
dataset yields the soft error "No data available" and a series spanning
fewer than 14 days yields the soft error about needing 14 days, both
returned as dictionaries, not exceptions. But the >= 30 decomposition
branch and the 14..29 fallback branch are unreachable: line 79 computes
float(daily_spending.std()) on the object-dtype Decimal series before
either branch, raising TypeError for every series of at least 14 points,
so a 30-day span errors instead of decomposing. -/
theorem c9_seasonality_insufficient_ok_std_raises :
    (∀ df : List Txn, df ≠ [] → (dailySeries df).length < 14 →
        analyzeSeasonality df =
          .ok { error := some "Insufficient data for seasonality analysis (need at least 14 days)" })
      ∧ analyzeSeasonality [] = .ok { error := some "No data available" }
      ∧ analyzeSeasonality c9ShortDf =
          .ok { error := some "Insufficient data for seasonality analysis (need at least 14 days)" }
      ∧ analyzeSeasonality c9LongDf = .error "TypeError" := by
  refine ⟨?_, rfl, ?_, ?_⟩
  · intro df hne hlt
    unfold analyzeSeasonality
    rw [if_neg (by simpa using hne), if_pos hlt]
  · decide
  · decide
